import Mathlib

/-!
Verification of sc4-disable-network-construction-sounds
(src/DisableNetworkConstructionSoundsDllDirector.cpp).

The plugin is a version-gated single-byte memory patcher for SimCity 4:
if the detected game version is exactly 641 it flips the byte at address
0x6071FC from 0x74 (JZ rel8) to 0xEB (JMP rel8), after making the page
writable with VirtualProtect.

Shallow embedding:
- host memory is a byte map `Nat → Nat`, page protection a map from page
  index to Win32 protection flags;
- the Win32 environment (`WinEnv`) records whether `VirtualProtect`
  succeeds and the error text carried by the `wil` exception when it
  fails (`THROW_IF_WIN32_BOOL_FALSE`);
- C++ exceptions are `Except`: `OverwriteMemory` returns
  `Except PatchError MemState`, and the try/catch in
  `DisableNetworkConstructionAnimationSounds` handles the error case;
- the logger is a list of (severity, line) pairs inside `ProgState`;
- `patchCalls` is instrumentation recording each invocation of
  `OverwriteMemory` with its (address, value) arguments.
-/

/-- Severity levels used by the plugin's logger. -/
inductive LogLevel where
  | Info
  | Error
deriving DecidableEq, Repr

/-- The exception thrown by `THROW_IF_WIN32_BOOL_FALSE` when
`VirtualProtect` fails; `what` is the text of `e.what()`. -/
structure PatchError where
  what : String
deriving DecidableEq, Repr

/-- The Win32 environment the patcher runs in: whether the
`VirtualProtect` call succeeds, and the platform error text the thrown
exception carries when it fails. -/
structure WinEnv where
  virtualProtectOk : Bool
  errorText : String
deriving DecidableEq, Repr

/-- Win32 `PAGE_EXECUTE` protection constant. -/
def PAGE_EXECUTE : Nat := 0x10

/-- Win32 `PAGE_EXECUTE_READ` protection constant. -/
def PAGE_EXECUTE_READ : Nat := 0x20

/-- Win32 `PAGE_EXECUTE_READWRITE` protection constant, the value passed
to `VirtualProtect` by `OverwriteMemory`. -/
def PAGE_EXECUTE_READWRITE : Nat := 0x40

/-- Win32 `PAGE_EXECUTE_WRITECOPY` protection constant. -/
def PAGE_EXECUTE_WRITECOPY : Nat := 0x80

/-- Does a Win32 protection value include execute permission? -/
def hasExecute (p : Nat) : Bool :=
  p == PAGE_EXECUTE || p == PAGE_EXECUTE_READ ||
    p == PAGE_EXECUTE_READWRITE || p == PAGE_EXECUTE_WRITECOPY

/-- x86 page size used by `VirtualProtect` granularity. -/
def pageSize : Nat := 4096

/-- The page containing a virtual address. -/
def pageOf (addr : Nat) : Nat := addr / pageSize

/-- Host process memory: byte contents per address and protection flags
per page. -/
@[ext]
structure MemState where
  mem : Nat → Nat
  protection : Nat → Nat

/-- `OverwriteMemory(uintptr_t address, uint8_t newValue)`:
`THROW_IF_WIN32_BOOL_FALSE(VirtualProtect(address, 1,
PAGE_EXECUTE_READWRITE, &oldProtect))` then `*(uint8_t*)address =
newValue`. If `VirtualProtect` fails the exception is thrown before the
write, so memory and protection are untouched. -/
def OverwriteMemory (env : WinEnv) (address newValue : Nat) (s : MemState) :
    Except PatchError MemState :=
  if env.virtualProtectOk then
    Except.ok
      { mem := fun a => if a = address then newValue else s.mem a
        protection := fun p =>
          if p = pageOf address then PAGE_EXECUTE_READWRITE else s.protection p }
  else
    Except.error ⟨env.errorText⟩

/-- The memory state after a call to `OverwriteMemory`, whether or not it
threw: on an exception the state is unchanged. -/
def runOverwrite (env : WinEnv) (address newValue : Nat) (s : MemState) :
    MemState :=
  match OverwriteMemory env address newValue s with
  | Except.ok s2 => s2
  | Except.error _ => s

/-- Plugin-visible state: host memory, the log lines written so far, and
(instrumentation) the list of `OverwriteMemory` invocations with their
arguments. -/
structure ProgState where
  memState : MemState
  log : List (LogLevel × String)
  patchCalls : List (Nat × Nat)

/-- The info line logged on success. -/
def successMessage : String :=
  "Disabled the network construction animation sounds."

/-- The error line logged when `OverwriteMemory` throws, from the format
string `"Failed to disable the network construction animation sounds: %s"`
applied to `e.what()`. -/
def failureMessage (what : String) : String :=
  "Failed to disable the network construction animation sounds: " ++ what

/-- The error line logged on a version mismatch, from the format string
`"Unable to disable the network construction animation sounds. Requires
game version 641, found game version %d."` applied to the detected
version. -/
def versionMismatchMessage (v : Nat) : String :=
  "Unable to disable the network construction animation sounds. Requires game version 641, found game version "
    ++ toString v ++ "."

/-- `DisableNetworkConstructionAnimationSounds()`: reads the detected game
version; on an exact match with 641 it tries
`OverwriteMemory(0x6071FC, 0xEB)` and logs success at Info level or the
caught exception at Error level; otherwise it logs the version mismatch
at Error level. -/
def DisableNetworkConstructionAnimationSounds (env : WinEnv)
    (gameVersion : Nat) (s : ProgState) : ProgState :=
  if gameVersion = 641 then
    match OverwriteMemory env 0x6071FC 0xEB s.memState with
    | Except.ok ms =>
        { s with
          memState := ms
          patchCalls := s.patchCalls ++ [(0x6071FC, 0xEB)]
          log := s.log ++ [(LogLevel.Info, successMessage)] }
    | Except.error e =>
        { s with
          patchCalls := s.patchCalls ++ [(0x6071FC, 0xEB)]
          log := s.log ++ [(LogLevel.Error, failureMessage e.what)] }
  else
    { s with
      log := s.log ++ [(LogLevel.Error, versionMismatchMessage gameVersion)] }

/-- `OnStart(cIGZCOM*)`: runs
`DisableNetworkConstructionAnimationSounds()` and returns `true`. -/
def OnStart (env : WinEnv) (gameVersion : Nat) (s : ProgState) :
    Bool × ProgState :=
  (true, DisableNetworkConstructionAnimationSounds env gameVersion s)

/-- `needle` occurs contiguously inside `hay`. -/
def containsSub (needle hay : List Char) : Prop :=
  ∃ l r, hay = l ++ needle ++ r

/-- A sample pre-patch memory state: every byte 0x74 (the original JZ
opcode), every page `PAGE_EXECUTE_READ`. -/
def sampleMem : MemState :=
  ⟨fun _ => 0x74, fun _ => PAGE_EXECUTE_READ⟩

/-- A sample environment in which `VirtualProtect` succeeds. -/
def sampleEnvOk : WinEnv := ⟨true, "e"⟩

/-- A sample environment in which `VirtualProtect` fails with the Win32
access-denied error text. -/
def sampleEnvFail : WinEnv := ⟨false, "Access is denied."⟩

/-- A sample initial program state with an empty log and no patch calls. -/
def sampleProg : ProgState := ⟨sampleMem, [], []⟩

/-- The byte writes actually performed by a call to
`OverwriteMemory env address newValue`: one write when `VirtualProtect`
succeeds, none when it throws first. -/
def overwriteWriteList (env : WinEnv) (address newValue : Nat) :
    List (Nat × Nat) :=
  if env.virtualProtectOk then [(address, newValue)] else []

/-- The byte writes performed by one run of
`DisableNetworkConstructionAnimationSounds` at detected version `v`. -/
def dncasWrites (env : WinEnv) (v : Nat) : List (Nat × Nat) :=
  if v = 641 then overwriteWriteList env 0x6071FC 0xEB else []

/-- Apply a list of byte writes to a memory map, oldest first. -/
def applyWriteList (writes : List (Nat × Nat)) (m : Nat → Nat) : Nat → Nat :=
  writes.foldl (fun acc w => fun a => if a = w.1 then w.2 else acc a) m

/-- Phases of the plugin's process lifetime: before the static director
is constructed by `RZGetCOMDllDirector`, after construction, and after
the host has delivered the one `OnStart` notification. -/
inductive Phase where
  | preConstruct
  | constructed
  | started
deriving DecidableEq, Repr

/-- A process-lifetime state: the current phase, the plugin-visible
program state, and the history of byte writes performed so far. -/
structure ProcState where
  phase : Phase
  prog : ProgState
  writes : List (Nat × Nat)

/-- The process state at load time, before the director is
constructed. -/
def initialProc (s : ProgState) : ProcState :=
  ⟨Phase.preConstruct, s, []⟩

/-- The states reachable during one process lifetime: the host
constructs the static director once (`RZGetCOMDllDirector`), then
delivers the startup notification once, which runs
`DisableNetworkConstructionAnimationSounds` and performs its writes. -/
inductive Reachable (env : WinEnv) (v : Nat) (s0 : ProgState) :
    ProcState → Prop where
  | init : Reachable env v s0 (initialProc s0)
  | construct {p : ProgState} {w : List (Nat × Nat)} :
      Reachable env v s0 ⟨Phase.preConstruct, p, w⟩ →
      Reachable env v s0 ⟨Phase.constructed, p, w⟩
  | start {p : ProgState} {w : List (Nat × Nat)} :
      Reachable env v s0 ⟨Phase.constructed, p, w⟩ →
      Reachable env v s0
        ⟨Phase.started, (OnStart env v p).2, w ++ dncasWrites env v⟩

/-- The name of the plugin's log file. -/
def PluginLogFileName : String := "SC4DisableNetworkConstructionSounds.log"

/-- Modelled from the spec: `Logger::Init` (Logger.h is not in src/)
takes the log file path, the minimum severity, and an append-mode flag,
per the spec's description of the logger initialization call
"(path + minimum severity + append-mode flag)". A path is modelled as
its list of components. -/
structure LoggerConfig where
  logFilePath : List String
  minLevel : LogLevel
  append : Bool
deriving DecidableEq, Repr

/-- `GetDllFolderPath()`: the parent directory of the module (DLL)
path. -/
def GetDllFolderPath (modulePath : List String) : List String :=
  modulePath.dropLast

/-- The `DisableNetworkConstructionSoundsDllDirector` constructor:
builds the log file path as `GetDllFolderPath()` joined with
`PluginLogFileName`, calls `Logger::Init(logFilePath, LogLevel::Error,
false)`, and writes the log file header
`"SC4DisableNetworkConstructionSounds v" PLUGIN_VERSION_STR`
(`PLUGIN_VERSION_STR`, from version.h, is the `versionStr`
parameter). Returns the logger configuration and the header text. -/
def directorConstructor (modulePath : List String) (versionStr : String) :
    LoggerConfig × String :=
  ({ logFilePath := GetDllFolderPath modulePath ++ [PluginLogFileName]
     minLevel := LogLevel.Error
     append := false },
   "SC4DisableNetworkConstructionSounds v" ++ versionStr)

theorem string_data_app (a b : String) : (a ++ b).data = a.data ++ b.data :=
  rfl

theorem versionMismatchMessage_data (v : Nat) :
    (versionMismatchMessage v).data =
      "Unable to disable the network construction animation sounds. Requires game version ".data
        ++ "641".data ++ ", found game version ".data
        ++ (toString v).data ++ ".".data := by
  show (_ ++ toString v ++ ".").data = _
  rw [string_data_app, string_data_app]
  simp only [List.append_assoc]
  rfl

/-- C1. For every detected game version `v ≠ 641`, `OverwriteMemory` is
never invoked (the invocation list and the memory state are unchanged)
and a single error-severity log line is produced whose text contains
both the required version 641 and the detected version `v`. -/
theorem version_guard_blocks_patch (env : WinEnv) (v : Nat) (s : ProgState)
    (h : v ≠ 641) :
    (DisableNetworkConstructionAnimationSounds env v s).patchCalls
        = s.patchCalls ∧
    (DisableNetworkConstructionAnimationSounds env v s).memState
        = s.memState ∧
    (DisableNetworkConstructionAnimationSounds env v s).log
        = s.log ++ [(LogLevel.Error, versionMismatchMessage v)] ∧
    containsSub "641".data (versionMismatchMessage v).data ∧
    containsSub (toString v).data (versionMismatchMessage v).data := by
  refine ⟨?_, ?_, ?_, ?_, ?_⟩
  · simp [DisableNetworkConstructionAnimationSounds, h]
  · simp [DisableNetworkConstructionAnimationSounds, h]
  · simp [DisableNetworkConstructionAnimationSounds, h]
  · refine ⟨"Unable to disable the network construction animation sounds. Requires game version ".data,
      ", found game version ".data ++ (toString v).data ++ ".".data, ?_⟩
    simp [versionMismatchMessage_data, List.append_assoc]
  · refine ⟨"Unable to disable the network construction animation sounds. Requires game version ".data
        ++ "641".data ++ ", found game version ".data, ".".data, ?_⟩
    simp [versionMismatchMessage_data, List.append_assoc]

/-- Witness for C1 at the concrete detected version 640. -/
theorem version_guard_blocks_patch_witness :
    (640 : Nat) ≠ 641 ∧
    ((DisableNetworkConstructionAnimationSounds ⟨true, "e"⟩ 640
        ⟨⟨fun _ => 0x74, fun _ => 0x20⟩, [], []⟩).patchCalls
      = (⟨⟨fun _ => 0x74, fun _ => 0x20⟩, [], []⟩ : ProgState).patchCalls ∧
    (DisableNetworkConstructionAnimationSounds ⟨true, "e"⟩ 640
        ⟨⟨fun _ => 0x74, fun _ => 0x20⟩, [], []⟩).memState
      = (⟨⟨fun _ => 0x74, fun _ => 0x20⟩, [], []⟩ : ProgState).memState ∧
    (DisableNetworkConstructionAnimationSounds ⟨true, "e"⟩ 640
        ⟨⟨fun _ => 0x74, fun _ => 0x20⟩, [], []⟩).log
      = (⟨⟨fun _ => 0x74, fun _ => 0x20⟩, [], []⟩ : ProgState).log
          ++ [(LogLevel.Error, versionMismatchMessage 640)] ∧
    containsSub "641".data (versionMismatchMessage 640).data ∧
    containsSub (toString 640).data (versionMismatchMessage 640).data) :=
  ⟨by decide,
    version_guard_blocks_patch ⟨true, "e"⟩ 640
      ⟨⟨fun _ => 0x74, fun _ => 0x20⟩, [], []⟩ (by decide)⟩

/-- C2. If the detected game version is 641 and the page-protection
change succeeds, exactly one byte is written: the byte at address
0x6071FC becomes 0xEB, every other address is unchanged, and the
success line is logged. -/
theorem patch_writes_exactly_one_byte (env : WinEnv) (v : Nat)
    (s : ProgState) (hv : v = 641) (hp : env.virtualProtectOk = true) :
    (DisableNetworkConstructionAnimationSounds env v s).memState.mem 0x6071FC
        = 0xEB ∧
    (∀ a, a ≠ 0x6071FC →
      (DisableNetworkConstructionAnimationSounds env v s).memState.mem a
        = s.memState.mem a) ∧
    (DisableNetworkConstructionAnimationSounds env v s).log
        = s.log ++ [(LogLevel.Info, successMessage)] := by
  subst hv
  refine ⟨?_, fun a ha => ?_, ?_⟩ <;>
    simp [DisableNetworkConstructionAnimationSounds, OverwriteMemory, hp]
  exact fun h => absurd h ha

/-- Witness for C2 in a concrete succeeding environment. -/
theorem patch_writes_exactly_one_byte_witness :
    (641 : Nat) = 641 ∧ sampleEnvOk.virtualProtectOk = true ∧
    ((DisableNetworkConstructionAnimationSounds sampleEnvOk 641
        sampleProg).memState.mem 0x6071FC = 0xEB ∧
    (∀ a, a ≠ 0x6071FC →
      (DisableNetworkConstructionAnimationSounds sampleEnvOk 641
        sampleProg).memState.mem a = sampleProg.memState.mem a) ∧
    (DisableNetworkConstructionAnimationSounds sampleEnvOk 641
        sampleProg).log
      = sampleProg.log ++ [(LogLevel.Info, successMessage)]) :=
  ⟨rfl, rfl,
    patch_writes_exactly_one_byte sampleEnvOk 641 sampleProg rfl rfl⟩

/-- C3. If the page-protection change fails, `OverwriteMemory` signals a
`PatchError` carrying the platform error text, the memory state
(contents and protection) is unchanged, and the error line
"Failed to disable the network construction animation sounds: " followed
by the error text is logged. -/
theorem protection_failure_no_write (env : WinEnv) (v : Nat)
    (s : ProgState) (hv : v = 641) (hp : env.virtualProtectOk = false) :
    OverwriteMemory env 0x6071FC 0xEB s.memState
        = Except.error ⟨env.errorText⟩ ∧
    (DisableNetworkConstructionAnimationSounds env v s).memState
        = s.memState ∧
    (DisableNetworkConstructionAnimationSounds env v s).log
        = s.log ++ [(LogLevel.Error, failureMessage env.errorText)] := by
  subst hv
  refine ⟨?_, ?_, ?_⟩ <;>
    simp [DisableNetworkConstructionAnimationSounds, OverwriteMemory, hp,
      failureMessage]

/-- Witness for C3 in a concrete failing environment. -/
theorem protection_failure_no_write_witness :
    (641 : Nat) = 641 ∧ sampleEnvFail.virtualProtectOk = false ∧
    (OverwriteMemory sampleEnvFail 0x6071FC 0xEB sampleProg.memState
        = Except.error ⟨sampleEnvFail.errorText⟩ ∧
    (DisableNetworkConstructionAnimationSounds sampleEnvFail 641
        sampleProg).memState = sampleProg.memState ∧
    (DisableNetworkConstructionAnimationSounds sampleEnvFail 641
        sampleProg).log
      = sampleProg.log
          ++ [(LogLevel.Error, failureMessage sampleEnvFail.errorText)]) :=
  ⟨rfl, rfl,
    protection_failure_no_write sampleEnvFail 641 sampleProg rfl rfl⟩

/-- C4. For detected version 641, `OverwriteMemory` is invoked exactly
once, with address 0x6071FC and byte 0xEB, and the success log line is
produced in this run if and only if the protection change succeeds. -/
theorem patch_invoked_once_success_iff (env : WinEnv) (v : Nat)
    (s : ProgState) (hv : v = 641) :
    (DisableNetworkConstructionAnimationSounds env v s).patchCalls
        = s.patchCalls ++ [(0x6071FC, 0xEB)] ∧
    ((LogLevel.Info, successMessage)
        ∈ ((DisableNetworkConstructionAnimationSounds env v s).log).drop
            s.log.length
      ↔ env.virtualProtectOk = true) := by
  subst hv
  cases hp : env.virtualProtectOk <;>
    simp [DisableNetworkConstructionAnimationSounds, OverwriteMemory, hp,
      List.drop_left]

/-- Witness for C4 at the concrete detected version 641. -/
theorem patch_invoked_once_success_iff_witness :
    (641 : Nat) = 641 ∧
    ((DisableNetworkConstructionAnimationSounds sampleEnvFail 641
        sampleProg).patchCalls
      = sampleProg.patchCalls ++ [(0x6071FC, 0xEB)] ∧
    ((LogLevel.Info, successMessage)
        ∈ ((DisableNetworkConstructionAnimationSounds sampleEnvFail 641
            sampleProg).log).drop sampleProg.log.length
      ↔ sampleEnvFail.virtualProtectOk = true)) :=
  ⟨rfl, patch_invoked_once_success_iff sampleEnvFail 641 sampleProg rfl⟩

/-- C5. `OverwriteMemory` never leaves the target page non-executable:
if the page containing `address` is executable beforehand, it is still
executable after the call returns or throws, and on success the page is
left in the writable-executable state `PAGE_EXECUTE_READWRITE`. -/
theorem patch_preserves_execute (env : WinEnv) (address newValue : Nat)
    (s : MemState) (h : hasExecute (s.protection (pageOf address)) = true) :
    hasExecute
        ((runOverwrite env address newValue s).protection (pageOf address))
      = true ∧
    (env.virtualProtectOk = true →
      (runOverwrite env address newValue s).protection (pageOf address)
        = PAGE_EXECUTE_READWRITE) := by
  refine ⟨?_, fun hok => ?_⟩
  · cases hp : env.virtualProtectOk
    · simpa [runOverwrite, OverwriteMemory, hp] using h
    · simp [runOverwrite, OverwriteMemory, hp, hasExecute,
        PAGE_EXECUTE_READWRITE]
  · simp [runOverwrite, OverwriteMemory, hok]

/-- Witness for C5 on a concrete executable page. -/
theorem patch_preserves_execute_witness :
    hasExecute (sampleMem.protection (pageOf 0x6071FC)) = true ∧
    (hasExecute
        ((runOverwrite sampleEnvOk 0x6071FC 0xEB sampleMem).protection
          (pageOf 0x6071FC)) = true ∧
    (sampleEnvOk.virtualProtectOk = true →
      (runOverwrite sampleEnvOk 0x6071FC 0xEB sampleMem).protection
          (pageOf 0x6071FC) = PAGE_EXECUTE_READWRITE)) :=
  ⟨by decide,
    patch_preserves_execute sampleEnvOk 0x6071FC 0xEB sampleMem (by decide)⟩

/-- C8. Applying the patch is idempotent: invoking `OverwriteMemory`
twice with the arguments (0x6071FC, 0xEB) yields the same memory state
as invoking it once. -/
theorem patch_idempotent (env : WinEnv) (s : MemState) :
    runOverwrite env 0x6071FC 0xEB (runOverwrite env 0x6071FC 0xEB s)
      = runOverwrite env 0x6071FC 0xEB s := by
  cases hp : env.virtualProtectOk
  · simp [runOverwrite, OverwriteMemory, hp]
  · refine MemState.ext ?_ ?_
    · funext x
      by_cases hx : x = 0x6071FC <;>
        simp [runOverwrite, OverwriteMemory, hp, hx]
    · funext x
      by_cases hx : x = pageOf 0x6071FC <;>
        simp [runOverwrite, OverwriteMemory, hp, hx]

/-- C6. Failures never propagate out of the startup hook: for every
environment, detected version and state — version mismatch,
protection-change failure or success — `OnStart` returns normally with
`true` and the outcome is converted into exactly one appended log
line. -/
theorem onStart_catches_all (env : WinEnv) (v : Nat) (s : ProgState) :
    (OnStart env v s).1 = true ∧
    ∃ lvl msg, (OnStart env v s).2.log = s.log ++ [(lvl, msg)] := by
  refine ⟨rfl, ?_⟩
  by_cases hv : v = 641
  · cases hp : env.virtualProtectOk
    · exact ⟨LogLevel.Error, failureMessage env.errorText,
        by simp [OnStart, DisableNetworkConstructionAnimationSounds,
          OverwriteMemory, hv, hp]⟩
    · exact ⟨LogLevel.Info, successMessage,
        by simp [OnStart, DisableNetworkConstructionAnimationSounds,
          OverwriteMemory, hv, hp]⟩
  · exact ⟨LogLevel.Error, versionMismatchMessage v,
      by simp [OnStart, DisableNetworkConstructionAnimationSounds, hv]⟩

/-- C10. `OnStart` returns `true` to the host in every case: patched,
skipped on a version mismatch, or failed on a protection-change
error. -/
theorem onStart_returns_true (env : WinEnv) (v : Nat) (s : ProgState) :
    (OnStart env v s).1 = true :=
  rfl

theorem dncasWrites_sound (env : WinEnv) (v : Nat) (p : ProgState) :
    (DisableNetworkConstructionAnimationSounds env v p).memState.mem
      = applyWriteList (dncasWrites env v) p.memState.mem := by
  by_cases hv : v = 641
  · cases hp : env.virtualProtectOk <;>
      simp [DisableNetworkConstructionAnimationSounds, OverwriteMemory,
        dncasWrites, overwriteWriteList, applyWriteList, hv, hp]
  · simp [DisableNetworkConstructionAnimationSounds, dncasWrites,
      applyWriteList, hv]

theorem dncasWrites_length (env : WinEnv) (v : Nat) :
    (dncasWrites env v).length ≤ 1 ∧
    (v ≠ 641 → dncasWrites env v = []) ∧
    ∀ e ∈ dncasWrites env v, e.1 = 0x6071FC ∧ e.2 = 0xEB := by
  by_cases hv : v = 641 <;> cases hp : env.virtualProtectOk <;>
    simp [dncasWrites, overwriteWriteList, hv, hp]

theorem reachable_invariant (env : WinEnv) (v : Nat) (s0 : ProgState)
    (p : ProcState) (h : Reachable env v s0 p) :
    (p.phase ≠ Phase.started → p.writes = []) ∧
    p.writes.length ≤ 1 ∧
    (v ≠ 641 → p.writes = []) ∧
    ∀ e ∈ p.writes, e.1 = 0x6071FC ∧ e.2 = 0xEB := by
  induction h with
  | init => simp [initialProc]
  | @construct p w _ ih =>
      have hw : w = [] := ih.1 (by simp)
      simp_all
  | @start p w _ ih =>
      have hw : w = [] := ih.1 (by simp)
      subst hw
      refine ⟨fun hc => absurd rfl hc, ?_, ?_, ?_⟩
      · simpa using (dncasWrites_length env v).1
      · intro hv
        simpa using (dncasWrites_length env v).2.1 hv
      · simpa using (dncasWrites_length env v).2.2

/-- C7. In every state reachable during one process lifetime, the byte
write at 0x6071FC has been performed at most once, and never when the
detected version differs from 641; every write in the history targets
address 0x6071FC with byte 0xEB. -/
theorem patch_at_most_once (env : WinEnv) (v : Nat) (s0 : ProgState)
    (p : ProcState) (h : Reachable env v s0 p) :
    p.writes.length ≤ 1 ∧
    (v ≠ 641 → p.writes = []) ∧
    ∀ e ∈ p.writes, e.1 = 0x6071FC ∧ e.2 = 0xEB :=
  (reachable_invariant env v s0 p h).2

/-- Witness for C7 at the fully-run process state in a succeeding
environment at version 641: exactly the one write was performed. -/
theorem patch_at_most_once_witness :
    (ProcState.mk Phase.started (OnStart sampleEnvOk 641 sampleProg).2
        ([] ++ dncasWrites sampleEnvOk 641)).writes.length ≤ 1 ∧
    ((641 : Nat) ≠ 641 →
      (ProcState.mk Phase.started (OnStart sampleEnvOk 641 sampleProg).2
        ([] ++ dncasWrites sampleEnvOk 641)).writes = []) ∧
    ∀ e ∈ (ProcState.mk Phase.started (OnStart sampleEnvOk 641 sampleProg).2
        ([] ++ dncasWrites sampleEnvOk 641)).writes,
      e.1 = 0x6071FC ∧ e.2 = 0xEB :=
  patch_at_most_once sampleEnvOk 641 sampleProg _
    (Reachable.start (Reachable.construct Reachable.init))

/-- C9 counterexample: the director constructor initializes the logger
with the append-mode flag `false`, so the log file is not opened in
append mode. -/
theorem log_not_append_mode :
    ¬ (directorConstructor ["C:", "SimCity 4", "Plugins",
        "SC4DisableNetworkConstructionSounds.dll"] "1.0.1").1.append
          = true := by
  simp [directorConstructor]

/-- C9 (amended). The persisted state is a single human-readable log
file named `SC4DisableNetworkConstructionSounds.log`, written to the
same directory as the plugin binary, beginning with a header line
containing the plugin name and version; the logger is initialized at
Error minimum severity with the append-mode flag `false`, so the file
holds the most recent run rather than appending across runs. -/
theorem log_file_configuration (modulePath : List String)
    (versionStr : String) :
    (directorConstructor modulePath versionStr).1.logFilePath
        = GetDllFolderPath modulePath ++ [PluginLogFileName] ∧
    PluginLogFileName = "SC4DisableNetworkConstructionSounds.log" ∧
    (directorConstructor modulePath versionStr).1.minLevel
        = LogLevel.Error ∧
    (directorConstructor modulePath versionStr).1.append = false ∧
    (directorConstructor modulePath versionStr).2
        = "SC4DisableNetworkConstructionSounds v" ++ versionStr ∧
    containsSub "SC4DisableNetworkConstructionSounds".data
        ((directorConstructor modulePath versionStr).2).data ∧
    containsSub versionStr.data
        ((directorConstructor modulePath versionStr).2).data := by
  refine ⟨rfl, rfl, rfl, rfl, rfl,
    ⟨[], (" v" ++ versionStr).data, ?_⟩,
    ⟨"SC4DisableNetworkConstructionSounds v".data, [], ?_⟩⟩
  · show ("SC4DisableNetworkConstructionSounds v" ++ versionStr).data = _
    simp [string_data_app]
  · show ("SC4DisableNetworkConstructionSounds v" ++ versionStr).data = _
    simp [string_data_app]
